import Mathlib

/-
Verification of the microblog application's data model and operations.
The definitions below are a shallow embedding of the code in app/models.py,
app/forms.py and app/errors.py: the three database tables become lists of
rows, the ORM queries become executable list functions, and the form
validators become functions returning field-level error messages.
-/

set_option maxHeartbeats 1000000

namespace Microblog

/-- A row of the `post` table (app/models.py, class Post): id (primary key),
body (String(140) column), timestamp, user_id (foreign key to user.id). -/
structure Post where
  id : Nat
  body : String
  timestamp : Int
  user_id : Nat
  deriving DecidableEq, Repr

/-- A row of the `user` table (app/models.py, class User): id (primary key),
username, email, and the nullable password_hash column
(`so.Mapped[Optional[str]]`). -/
structure UserRec where
  id : Nat
  username : String
  email : String
  password_hash : Option String
  deriving DecidableEq, Repr

/-- The database state: the `user` and `post` tables plus the `followers`
association table, whose rows are `(follower_id, followed_id)` pairs
(app/models.py, `followers = sa.Table(...)`). -/
structure DB where
  users : List UserRec
  posts : List Post
  followers : List (Nat × Nat)
  deriving DecidableEq, Repr

/-- User.is_following (app/models.py): executes
`self.following.select().where(User.id == user.id)` and tests whether the
scalar result is not None.  The `following` relationship joins the current
user through the association table (`follower_id == self.id`,
`followed_id == other.id`) to the user table. -/
def is_following (db : DB) (selfId otherId : Nat) : Bool :=
  db.users.any (fun u2 => u2.id == otherId && decide ((selfId, u2.id) ∈ db.followers))

/-- User.follow (app/models.py): `if not self.is_following(user):
self.following.add(user)` — adding to the relationship inserts one
`(self.id, user.id)` row into the association table. -/
def follow (db : DB) (selfId otherId : Nat) : DB :=
  if is_following db selfId otherId then db
  else { db with followers := db.followers ++ [(selfId, otherId)] }

/-- User.unfollow (app/models.py): `if self.is_following(user):
self.following.remove(user)` — removal deletes the association rows
matching `(self.id, user.id)`. -/
def unfollow (db : DB) (selfId otherId : Nat) : DB :=
  if is_following db selfId otherId then
    { db with followers := db.followers.filter (fun e => e ≠ (selfId, otherId)) }
  else db

theorem is_following_iff (db : DB) (A B : Nat) (hB : ∃ u ∈ db.users, u.id = B) :
    is_following db A B = true ↔ (A, B) ∈ db.followers := by
  unfold is_following
  simp only [List.any_eq_true, Bool.and_eq_true, beq_iff_eq, decide_eq_true_eq]
  constructor
  · rintro ⟨u2, hu2, rfl, hmem⟩
    exact hmem
  · rintro hmem
    obtain ⟨u, hu, rfl⟩ := hB
    exact ⟨u, hu, rfl, hmem⟩

/-- A small concrete database used by the witness theorems. -/
def exDB : DB :=
  { users := [⟨1, "alice", "alice@example.com", none⟩,
              ⟨2, "bob", "bob@example.com", none⟩,
              ⟨3, "carol", "carol@example.com", none⟩],
    posts := [⟨1, "hi", 5, 1⟩, ⟨2, "yo", 9, 2⟩, ⟨3, "hm", 7, 3⟩],
    followers := [(1, 2)] }

/-- C2: for users A and B (B present in the user table, and the primary key
of the association table ruling out duplicate rows), follow(A,B) when A
already follows B leaves the database unchanged; following twice in a row
leaves exactly one (A,B) row; unfollow(A,B) when A does not follow B leaves
the database unchanged and there are zero (A,B) rows. -/
theorem follow_unfollow_noop (db : DB) (A B : Nat)
    (hB : ∃ u ∈ db.users, u.id = B)
    (hpk : db.followers.count (A, B) ≤ 1) :
    (is_following db A B = true → follow db A B = db) ∧
    ((follow (follow db A B) A B).followers.count (A, B) = 1) ∧
    (is_following db A B = false →
      unfollow db A B = db ∧ db.followers.count (A, B) = 0) := by
  have hiff := is_following_iff db A B hB
  refine ⟨?_, ?_, ?_⟩
  · intro h
    simp [follow, h]
  · cases hc : is_following db A B with
    | true =>
      have h1 : follow db A B = db := by simp [follow, hc]
      rw [h1, h1]
      have hmem := hiff.mp hc
      have hne0 : db.followers.count (A, B) ≠ 0 :=
        fun h0 => (List.count_eq_zero.mp h0) hmem
      omega
    | false =>
      have h0 : db.followers.count (A, B) = 0 :=
        List.count_eq_zero.mpr (fun hm => by simp [hiff.mpr hm] at hc)
      have h1 : follow db A B = { db with followers := db.followers ++ [(A, B)] } := by
        simp [follow, hc]
      have hmem2 : (A, B) ∈ (db.followers ++ [(A, B)]) := by simp
      have h2 : is_following { db with followers := db.followers ++ [(A, B)] } A B = true :=
        (is_following_iff { db with followers := db.followers ++ [(A, B)] } A B hB).mpr hmem2
      rw [h1]
      simp [follow, h2, List.count_append, h0]
  · intro h
    have hne : (A, B) ∉ db.followers := fun hm => by simp [hiff.mpr hm] at h
    exact ⟨by simp [unfollow, h], List.count_eq_zero.mpr hne⟩

/-- Witness for C2 at a concrete database: user 1 does not yet follow user 3;
following twice leaves exactly one (1,3) row, and unfollowing while not
following is a no-op with zero rows. -/
theorem follow_unfollow_noop_witness :
    (∃ u ∈ exDB.users, u.id = 3) ∧ exDB.followers.count (1, 3) ≤ 1 ∧
    (follow (follow exDB 1 3) 1 3).followers.count (1, 3) = 1 ∧
    (unfollow exDB 1 3 = exDB ∧ exDB.followers.count (1, 3) = 0) :=
  ⟨by decide, by decide,
   (follow_unfollow_noop exDB 1 3 (by decide) (by decide)).2.1,
   (follow_unfollow_noop exDB 1 3 (by decide) (by decide)).2.2 (by decide)⟩

/-- Modelled from the spec: werkzeug's `generate_password_hash` (a third-party
library, not part of this repository's sources).  The spec requires only that
the stored value is a derived hash of the password from which
`check_password_hash` recognises exactly the original password, so the model
is a deterministic injective encoding tagged with the method prefix. -/
def generate_password_hash (password : String) : String :=
  "scrypt:32768:8:1$salt$" ++ password

/-- Modelled from the spec: werkzeug's `check_password_hash` (third-party).
On a stored hash it succeeds exactly for the hashed password; when the first
argument is Python's None, the attribute access inside the library raises,
which the model renders as an error value. -/
def check_password_hash (pwhash : Option String) (password : String) :
    Except String Bool :=
  match pwhash with
  | none => Except.error "AttributeError: NoneType has no attribute split"
  | some h => Except.ok (h == generate_password_hash password)

/-- User.set_password (app/models.py): stores the generated hash in the
`password_hash` column. -/
def set_password (u : UserRec) (password : String) : UserRec :=
  { u with password_hash := some (generate_password_hash password) }

/-- User.check_password (app/models.py): passes the stored `password_hash`
column unguarded to `check_password_hash`. -/
def check_password (u : UserRec) (password : String) : Except String Bool :=
  check_password_hash u.password_hash password

theorem generate_password_hash_inj (p q : String)
    (h : generate_password_hash p = generate_password_hash q) : p = q := by
  have hd := congrArg String.data h
  simp [generate_password_hash, String.data_append] at hd
  exact String.ext hd

/-- C3: after set_password(p), check_password(p) returns true and
check_password(q) returns false for any q distinct from p. -/
theorem set_check_password (u : UserRec) (p q : String) (h : q ≠ p) :
    check_password (set_password u p) p = Except.ok true ∧
    check_password (set_password u p) q = Except.ok false := by
  constructor
  · simp [check_password, set_password, check_password_hash]
  · have hne : generate_password_hash p ≠ generate_password_hash q :=
      fun he => h ((generate_password_hash_inj p q he).symm)
    simp [check_password, set_password, check_password_hash, hne]

/-- Witness for C3 at a concrete user and passwords. -/
theorem set_check_password_witness :
    ("guess" ≠ "secret") ∧
    check_password (set_password ⟨1, "alice", "alice@example.com", none⟩ "secret")
        "secret" = Except.ok true ∧
    check_password (set_password ⟨1, "alice", "alice@example.com", none⟩ "secret")
        "guess" = Except.ok false :=
  ⟨by decide,
   (set_check_password ⟨1, "alice", "alice@example.com", none⟩ "secret" "guess"
      (by decide)).1,
   (set_check_password ⟨1, "alice", "alice@example.com", none⟩ "secret" "guess"
      (by decide)).2⟩

/-- C9: on a user whose password_hash column is unset (None), check_password
does not return false: the stored None is passed unguarded to the hash
checker, which raises. -/
theorem check_password_unset_raises (u : UserRec) (hnone : u.password_hash = none)
    (p : String) :
    check_password u p ≠ Except.ok false ∧
    check_password u p =
      Except.error "AttributeError: NoneType has no attribute split" := by
  simp [check_password, check_password_hash, hnone]

/-- Witness for C9 at a concrete user with no password set. -/
theorem check_password_unset_raises_witness :
    ((⟨7, "dave", "dave@example.com", none⟩ : UserRec).password_hash = none) ∧
    check_password ⟨7, "dave", "dave@example.com", none⟩ "pw" ≠ Except.ok false :=
  ⟨rfl,
   (check_password_unset_raises ⟨7, "dave", "dave@example.com", none⟩ rfl "pw").1⟩

/-- Python str.lower() as used on the email column: lowercases each
character of the string. -/
def pyLower (s : String) : String := ⟨s.data.map Char.toLower⟩

/-- Modelled from the spec: hashlib's md5 hexdigest (Python standard library,
not part of this repository's sources).  The spec uses it only as a
deterministic digest of the lowercased email, so the model is an executable
deterministic digest of the string rendered in hexadecimal. -/
def md5_hexdigest (s : String) : String :=
  (Nat.toDigits 16
    (s.data.foldl (fun acc c => (acc * 131 + c.toNat) % (2 ^ 128)) 0)).asString

/-- User.avatar (app/models.py): the md5 digest of the lowercased email
interpolated into the Gravatar identicon URL together with the size. -/
def avatar (u : UserRec) (size : Nat) : String :=
  "https://www.gravatar.com/avatar/" ++ md5_hexdigest (pyLower u.email) ++
    "?d=identicon&s=" ++ toString size

/-- C7: avatar(s) is the third-party identicon URL embedding the md5 digest
of the lowercased email; emails differing only in letter case give the same
URL; the result is a deterministic function of (email, size). -/
theorem avatar_spec (u u' : UserRec) (size : Nat) (hpos : 0 < size)
    (hcase : pyLower u'.email = pyLower u.email) :
    avatar u size =
      "https://www.gravatar.com/avatar/" ++ md5_hexdigest (pyLower u.email) ++
        "?d=identicon&s=" ++ toString size ∧
    avatar u' size = avatar u size ∧
    (∀ v : UserRec, v.email = u.email → avatar v size = avatar u size) := by
  refine ⟨rfl, ?_, ?_⟩
  · simp [avatar, hcase]
  · intro v hv
    simp [avatar, hv]

/-- Witness for C7: two users whose emails differ only in case share the
avatar URL at size 80. -/
theorem avatar_spec_witness :
    0 < 80 ∧
    avatar ⟨2, "bob2", "Bob@Example.COM", none⟩ 80 =
      avatar ⟨1, "bob", "bob@example.com", none⟩ 80 :=
  ⟨by decide,
   (avatar_spec ⟨1, "bob", "bob@example.com", none⟩
      ⟨2, "bob2", "Bob@Example.COM", none⟩ 80 (by decide) (by decide)).2.1⟩

/-- The database session state seen by the error handlers: the uncommitted
changes of the open transaction and the committed table state. -/
structure Session where
  pending : List String
  committed : DB
  deriving DecidableEq

/-- db.session.rollback(): discards the uncommitted changes of the open
transaction, leaving the committed state untouched. -/
def Session.rollback (s : Session) : Session :=
  { s with pending := [] }

/-- An HTTP response: the rendered template body and the status code. -/
structure Response where
  template : String
  status : Nat
  deriving DecidableEq

/-- Modelled from the spec: Flask's render_template (third-party) renders the
named static template. -/
def render_template (name : String) : String := name

/-- not_found_error (app/errors.py): `return render_template('404.html'), 404`
with the session untouched. -/
def not_found_error (s : Session) : Response × Session :=
  ({ template := render_template "404.html", status := 404 }, s)

/-- internal_error (app/errors.py): `db.session.rollback()` runs first, then
`return render_template('500.html'), 500`. -/
def internal_error (s : Session) : Response × Session :=
  let s' := s.rollback
  ({ template := render_template "500.html", status := 500 }, s')

/-- C6: the 404 handler returns the rendered 404 page with status 404 and
leaves the session untouched; the 500 handler rolls the open transaction
back before returning the rendered 500 page with status 500. -/
theorem error_handlers_spec (s : Session) :
    (not_found_error s).1.status = 404 ∧
    (not_found_error s).1.template = render_template "404.html" ∧
    (not_found_error s).2 = s ∧
    (internal_error s).1.status = 500 ∧
    (internal_error s).1.template = render_template "500.html" ∧
    (internal_error s).2 = s.rollback ∧
    (internal_error s).2.pending = [] :=
  ⟨rfl, rfl, rfl, rfl, rfl, rfl, rfl⟩

/-- RegistrationForm.validate_username (app/forms.py): queries the user table
for a row with the submitted username (`db.session.scalar` of the filtered
select, i.e. the first matching row or None) and raises ValidationError when
one exists. -/
def validate_username (db : DB) (data : String) : Except String Unit :=
  match db.users.find? (fun u => u.username == data) with
  | some _ => Except.error "Please use a different username."
  | none => Except.ok ()

/-- RegistrationForm.validate_email (app/forms.py): the same existence check
on the email column. -/
def validate_email (db : DB) (data : String) : Except String Unit :=
  match db.users.find? (fun u => u.email == data) with
  | some _ => Except.error "Please use a different email address."
  | none => Except.ok ()

/-- The outcome of validating a registration submission: the field-level
error of each custom validator, if it raised. -/
structure RegValidation where
  username_error : Option String
  email_error : Option String
  deriving DecidableEq

/-- WTForms runs both field validator hooks on submission; the form validates
only when neither raises. -/
def registrationValidate (db : DB) (uname email : String) : RegValidation :=
  { username_error :=
      match validate_username db uname with
      | Except.error e => some e
      | Except.ok _ => none,
    email_error :=
      match validate_email db email with
      | Except.error e => some e
      | Except.ok _ => none }

/-- The registration form passes validation only when no field collected an
error. -/
def regPasses (v : RegValidation) : Bool :=
  v.username_error == none && v.email_error == none

theorem validate_username_error_iff (db : DB) (data : String) :
    validate_username db data = Except.error "Please use a different username." ↔
      ∃ u ∈ db.users, u.username = data := by
  unfold validate_username
  cases hf : db.users.find? (fun u => u.username == data) with
  | some u =>
    simp only [iff_true_intro rfl, true_iff]
    exact ⟨u, List.mem_of_find?_eq_some hf, by
      have := List.find?_some hf
      simpa using this⟩
  | none =>
    simp only []
    constructor
    · intro h
      cases h
    · rintro ⟨u, hu, hname⟩
      have := List.find?_eq_none.mp hf u hu
      simp [hname] at this

theorem validate_email_error_iff (db : DB) (data : String) :
    validate_email db data = Except.error "Please use a different email address." ↔
      ∃ u ∈ db.users, u.email = data := by
  unfold validate_email
  cases hf : db.users.find? (fun u => u.email == data) with
  | some u =>
    simp only [iff_true_intro rfl, true_iff]
    exact ⟨u, List.mem_of_find?_eq_some hf, by
      have := List.find?_some hf
      simpa using this⟩
  | none =>
    simp only []
    constructor
    · intro h
      cases h
    · rintro ⟨u, hu, hname⟩
      have := List.find?_eq_none.mp hf u hu
      simp [hname] at this

/-- C4: a registration whose username or email already belongs to an existing
user fails form validation, and the colliding field carries the friendly
ValidationError message; the write is never attempted, so no database-level
uniqueness crash can occur. -/
theorem registration_duplicate_rejected (db : DB) (uname em : String)
    (hdup : (∃ u ∈ db.users, u.username = uname) ∨ (∃ u ∈ db.users, u.email = em)) :
    regPasses (registrationValidate db uname em) = false ∧
    ((∃ u ∈ db.users, u.username = uname) →
      (registrationValidate db uname em).username_error =
        some "Please use a different username.") ∧
    ((∃ u ∈ db.users, u.email = em) →
      (registrationValidate db uname em).email_error =
        some "Please use a different email address.") := by
  have hu := validate_username_error_iff db uname
  have he := validate_email_error_iff db em
  refine ⟨?_, ?_, ?_⟩
  · rcases hdup with hd | hd
    · have := hu.mpr hd
      simp [regPasses, registrationValidate, this]
    · have := he.mpr hd
      simp [regPasses, registrationValidate, this]
  · intro hd
    have := hu.mpr hd
    simp [registrationValidate, this]
  · intro hd
    have := he.mpr hd
    simp [registrationValidate, this]

/-- Witness for C4: registering with alice's username (fresh email) fails
validation with the username field error. -/
theorem registration_duplicate_rejected_witness :
    (∃ u ∈ exDB.users, u.username = "alice") ∧
    regPasses (registrationValidate exDB "alice" "new@example.com") = false :=
  ⟨by decide,
   (registration_duplicate_rejected exDB "alice" "new@example.com"
      (Or.inl (by decide))).1⟩

/-- EditProfileForm.validate_username (app/forms.py): the uniqueness query
runs only when the submitted username differs from the stored
original_username; otherwise the field is accepted with no query.  The Bool
of the result records whether the database query ran. -/
def editProfileValidateUsername (db : DB) (original data : String) :
    Except String Unit × Bool :=
  if data ≠ original then
    (match db.users.find? (fun u => u.username == data) with
     | some _ => (Except.error "Please use a different username.", true)
     | none => (Except.ok (), true))
  else (Except.ok (), false)

/-- C10: resubmitting the unchanged original username is accepted without any
uniqueness query, even when that username exists in the user table; when the
submitted name differs from the original, the query runs and the field errors
exactly when the name is taken. -/
theorem edit_profile_validate_username_spec (db : DB) (original data : String) :
    (data = original →
      editProfileValidateUsername db original data = (Except.ok (), false)) ∧
    (data ≠ original →
      (editProfileValidateUsername db original data).2 = true ∧
      ((editProfileValidateUsername db original data).1 =
          Except.error "Please use a different username." ↔
        ∃ u ∈ db.users, u.username = data)) := by
  constructor
  · intro h
    simp [editProfileValidateUsername, h]
  · intro h
    have hiff := validate_username_error_iff db data
    unfold editProfileValidateUsername
    rw [if_pos h]
    unfold validate_username at hiff
    cases hf : db.users.find? (fun u => u.username == data) with
    | some u =>
      rw [hf] at hiff
      exact ⟨rfl, by simpa using hiff⟩
    | none =>
      rw [hf] at hiff
      refine ⟨rfl, ?_⟩
      simp only []
      constructor
      · intro hcontra
        cases hcontra
      · intro hex
        exact absurd (hiff.mpr hex) (by intro hcontra; cases hcontra)

/-- Witness for C10: alice resubmits her own username, which is in the user
table, and is accepted without a query; submitting bob's name errors. -/
theorem edit_profile_validate_username_witness :
    editProfileValidateUsername exDB "alice" "alice" = (Except.ok (), false) ∧
    ((editProfileValidateUsername exDB "alice" "bob").2 = true ∧
      ((editProfileValidateUsername exDB "alice" "bob").1 =
          Except.error "Please use a different username." ↔
        ∃ u ∈ exDB.users, u.username = "bob")) :=
  ⟨(edit_profile_validate_username_spec exDB "alice" "alice").1 rfl,
   (edit_profile_validate_username_spec exDB "alice" "bob").2 (by decide)⟩

/-- PostForm's post field validators (app/forms.py): DataRequired() then
Length(min=1, max=140).  WTForms DataRequired stops the chain with its
message when the submitted string is empty or whitespace-only; Length then
compares len(data) with the bounds and records its message on violation. -/
def postFieldErrors (data : String) : List String :=
  if data.data.all Char.isWhitespace then ["This field is required."]
  else if data.length < 1 ∨ 140 < data.length then
    ["Field must be between 1 and 140 characters long."]
  else []

/-- The post form accepts the body only when its field collected no error. -/
def postFormAccepts (data : String) : Bool :=
  (postFieldErrors data).isEmpty

/-- C8: an accepted post body has length between 1 and 140 inclusive, and any
length violation leaves a field-level validation message, so an overlong or
empty body never reaches the database. -/
theorem post_body_length_validated (data : String) :
    (postFormAccepts data = true → 1 ≤ data.length ∧ data.length ≤ 140) ∧
    (data.length < 1 ∨ 140 < data.length → postFieldErrors data ≠ []) := by
  constructor
  · intro h
    unfold postFormAccepts postFieldErrors at h
    cases h1 : data.data.all Char.isWhitespace with
    | true => simp [h1] at h
    | false =>
      simp [h1] at h
      omega
  · intro hviol
    unfold postFieldErrors
    cases h1 : data.data.all Char.isWhitespace with
    | true => simp [h1]
    | false =>
      simp [h1]
      omega

/-- Witness for C8: the body "hello" passes and its length is within bounds;
the empty body leaves a field error. -/
theorem post_body_length_validated_witness :
    (postFormAccepts "hello" = true ∧
      1 ≤ ("hello").length ∧ ("hello").length ≤ 140) ∧
    (("").length < 1 ∧ postFieldErrors "" ≠ []) :=
  ⟨⟨by decide, (post_body_length_validated "hello").1 (by decide)⟩,
   ⟨by decide, (post_body_length_validated "").2 (Or.inl (by decide))⟩⟩

/-- Modelled from the spec: the follow route handler (routes.py, which is
imported by app/__init__.py but absent from the sources).  The spec states
that self-follow is ruled out "at the application level, not the schema
level": the handler refuses when the target of the follow equals the
current user and otherwise delegates to User.follow. -/
def routeFollow (db : DB) (currentId targetId : Nat) : DB :=
  if currentId == targetId then db else follow db currentId targetId

/-- C5: the application-level follow operation never creates a self-follow
edge: performing it with A as both follower and target leaves the follow
relation without an (A,A) row. -/
theorem route_follow_no_self_edge (db : DB) (A : Nat)
    (h : (A, A) ∉ db.followers) :
    (A, A) ∉ (routeFollow db A A).followers ∧ routeFollow db A A = db := by
  have hr : routeFollow db A A = db := by simp [routeFollow]
  exact ⟨by rw [hr]; exact h, hr⟩

/-- Witness for C5: user 1 attempting to follow themselves leaves the
database without a (1,1) row. -/
theorem route_follow_no_self_edge_witness :
    (1, 1) ∉ exDB.followers ∧ (1, 1) ∉ (routeFollow exDB 1 1).followers :=
  ⟨by decide, (route_follow_no_self_edge exDB 1 (by decide)).1⟩

/-- The Author.followers join target inside following_posts (app/models.py):
the user rows linked through the association table with
`followed_id == author.id`. -/
def followersOf (db : DB) (a : UserRec) : List UserRec :=
  db.users.filter (fun f => decide ((f.id, a.id) ∈ db.followers))

/-- The first join of following_posts,
`.join(Post.author.of_type(Author))`: the user rows matching the post's
user_id foreign key. -/
def authorsOf (db : DB) (p : Post) : List UserRec :=
  db.users.filter (fun a => a.id == p.user_id)

/-- The second join of following_posts,
`.join(Author.followers.of_type(Follower), isouter=True)`: one row per
follower of the author, or a single null row when the author has none. -/
def followerRows (db : DB) (a : UserRec) : List (Option UserRec) :=
  if (followersOf db a).isEmpty then [none]
  else (followersOf db a).map some

/-- The WHERE filter of following_posts,
`sa.or_(Follower.id == self.id, Author.id == self.id)`; the null follower
column of an outer-join row compares false. -/
def rowKeep (selfId : Nat) (a : UserRec) (f? : Option UserRec) : Bool :=
  (match f? with
   | some f => f.id == selfId
   | none => false) || a.id == selfId

/-- The rows selected by following_posts before grouping: the Post column of
every join row passing the WHERE filter. -/
def queryRows (db : DB) (selfId : Nat) : List Post :=
  db.posts.flatMap (fun p =>
    (authorsOf db p).flatMap (fun a =>
      ((followerRows db a).filter (rowKeep selfId a)).map (fun _ => p)))

/-- `.group_by(Post)`: collapses the join rows carrying the same post
(grouped by its primary key) into one. -/
def groupByPost : List Post → List Post
  | [] => []
  | p :: rest => p :: groupByPost (rest.filter (fun q => q.id != p.id))
termination_by l => l.length
decreasing_by
  have := List.length_filter_le (fun q => q.id != p.id) rest
  simp only [List.length_cons]
  omega

/-- `.order_by(Post.timestamp.desc())` as a relation: descending timestamp
(non-strict). -/
def postDescOrder (a b : Post) : Prop := b.timestamp ≤ a.timestamp

instance : DecidableRel postDescOrder :=
  fun a b => inferInstanceAs (Decidable (b.timestamp ≤ a.timestamp))

instance : IsTotal Post postDescOrder :=
  ⟨fun a b => le_total b.timestamp a.timestamp⟩

instance : IsTrans Post postDescOrder :=
  ⟨fun _ _ _ h1 h2 => le_trans h2 h1⟩

/-- `.order_by(Post.timestamp.desc())`: returns the rows sorted by
descending timestamp. -/
def orderByTimestampDesc (l : List Post) : List Post :=
  l.insertionSort postDescOrder

/-- User.following_posts (app/models.py): the feed query — join posts to
their author, outer-join the author's followers, keep rows whose follower or
author is the requesting user, group by post, order by timestamp
descending. -/
def following_posts (db : DB) (selfId : Nat) : List Post :=
  orderByTimestampDesc (groupByPost (queryRows db selfId))

theorem mem_followersOf (db : DB) (a f : UserRec) :
    f ∈ followersOf db a ↔ f ∈ db.users ∧ (f.id, a.id) ∈ db.followers := by
  simp [followersOf, List.mem_filter]

theorem mem_authorsOf (db : DB) (p : Post) (a : UserRec) :
    a ∈ authorsOf db p ↔ a ∈ db.users ∧ a.id = p.user_id := by
  simp [authorsOf, List.mem_filter]

theorem followerRows_of_empty (db : DB) (a : UserRec)
    (he : (followersOf db a).isEmpty = true) :
    followerRows db a = [none] := by
  unfold followerRows
  rw [if_pos he]

theorem followerRows_of_not_empty (db : DB) (a : UserRec)
    (he : ¬(followersOf db a).isEmpty = true) :
    followerRows db a = (followersOf db a).map some := by
  unfold followerRows
  rw [if_neg he]

theorem keep_iff (db : DB) (selfId : Nat) (a : UserRec)
    (hself : ∃ su ∈ db.users, su.id = selfId) :
    (∃ f? ∈ followerRows db a, rowKeep selfId a f? = true) ↔
      (a.id = selfId ∨ (selfId, a.id) ∈ db.followers) := by
  constructor
  · rintro ⟨f?, hmem, hkeep⟩
    cases f? with
    | none =>
      left
      simpa [rowKeep] using hkeep
    | some f =>
      have hf : f ∈ followersOf db a := by
        by_cases he : (followersOf db a).isEmpty = true
        · rw [followerRows_of_empty db a he] at hmem
          simp at hmem
        · rw [followerRows_of_not_empty db a he] at hmem
          obtain ⟨x, hx, hxe⟩ := List.mem_map.mp hmem
          cases hxe
          exact hx
      have hedge := ((mem_followersOf db a f).mp hf).2
      simp only [rowKeep, Bool.or_eq_true, beq_iff_eq] at hkeep
      rcases hkeep with h | h
      · right
        rw [← h]
        exact hedge
      · left
        exact h
  · intro h
    rcases h with h | h
    · by_cases he : (followersOf db a).isEmpty = true
      · refine ⟨none, ?_, ?_⟩
        · rw [followerRows_of_empty db a he]
          exact List.mem_singleton_self none
        · simp [rowKeep, h]
      · have hne : followersOf db a ≠ [] := by
          simpa [List.isEmpty_iff] using he
        obtain ⟨f, hf⟩ := List.exists_mem_of_ne_nil _ hne
        refine ⟨some f, ?_, ?_⟩
        · rw [followerRows_of_not_empty db a he]
          exact List.mem_map_of_mem some hf
        · simp [rowKeep, h]
    · obtain ⟨su, hsu, rfl⟩ := hself
      have hf : su ∈ followersOf db a := (mem_followersOf db a su).mpr ⟨hsu, h⟩
      have hne : ¬(followersOf db a).isEmpty = true := by
        intro hemp
        rw [List.isEmpty_iff] at hemp
        rw [hemp] at hf
        cases hf
      refine ⟨some su, ?_, ?_⟩
      · rw [followerRows_of_not_empty db a hne]
        exact List.mem_map_of_mem some hf
      · simp [rowKeep]

theorem mem_queryRows (db : DB) (selfId : Nat) (p : Post)
    (hself : ∃ su ∈ db.users, su.id = selfId) :
    p ∈ queryRows db selfId ↔
      p ∈ db.posts ∧ (∃ a ∈ db.users, a.id = p.user_id) ∧
        (p.user_id = selfId ∨ (selfId, p.user_id) ∈ db.followers) := by
  unfold queryRows
  rw [List.mem_flatMap]
  constructor
  · rintro ⟨q, hq, hmem⟩
    rw [List.mem_flatMap] at hmem
    obtain ⟨a, ha, hrow⟩ := hmem
    obtain ⟨f?, hf?, rfl⟩ := List.mem_map.mp hrow
    have hfk := List.mem_filter.mp hf?
    have ha' := (mem_authorsOf db q a).mp ha
    have hcond := (keep_iff db selfId a hself).mp ⟨f?, hfk.1, hfk.2⟩
    rw [ha'.2] at hcond
    exact ⟨hq, ⟨a, ha'.1, ha'.2⟩, hcond⟩
  · rintro ⟨hp, ⟨a, ha, haid⟩, hcond⟩
    refine ⟨p, hp, ?_⟩
    rw [List.mem_flatMap]
    refine ⟨a, (mem_authorsOf db p a).mpr ⟨ha, haid⟩, ?_⟩
    rw [← haid] at hcond
    obtain ⟨f?, hfmem, hfkeep⟩ := (keep_iff db selfId a hself).mpr hcond
    exact List.mem_map.mpr ⟨f?, List.mem_filter.mpr ⟨hfmem, hfkeep⟩, rfl⟩

theorem queryRows_subset (db : DB) (selfId : Nat) (p : Post)
    (hmem : p ∈ queryRows db selfId) : p ∈ db.posts := by
  unfold queryRows at hmem
  rw [List.mem_flatMap] at hmem
  obtain ⟨q, hq, hrow⟩ := hmem
  rw [List.mem_flatMap] at hrow
  obtain ⟨a, _, hrow⟩ := hrow
  obtain ⟨_, _, rfl⟩ := List.mem_map.mp hrow
  exact hq

theorem groupByPost_subset (l : List Post) : ∀ q ∈ groupByPost l, q ∈ l := by
  induction l using groupByPost.induct with
  | case1 =>
    intro q hq
    rw [groupByPost] at hq
    cases hq
  | case2 p rest ih =>
    intro q hq
    rw [groupByPost] at hq
    rcases List.mem_cons.mp hq with h | h
    · exact h ▸ List.mem_cons_self p rest
    · exact List.mem_cons_of_mem p (List.mem_of_mem_filter (ih q h))

theorem mem_groupByPost (l : List Post) :
    (∀ a ∈ l, ∀ b ∈ l, a.id = b.id → a = b) → ∀ q ∈ l, q ∈ groupByPost l := by
  induction l using groupByPost.induct with
  | case1 =>
    intro _ q hq
    cases hq
  | case2 p rest ih =>
    intro hinj q hq
    rw [groupByPost]
    rcases List.mem_cons.mp hq with h | h
    · exact h ▸ List.mem_cons_self _ _
    · by_cases hid : q.id = p.id
      · have : q = p := hinj q hq p (List.mem_cons_self p rest) hid
        exact this ▸ List.mem_cons_self _ _
      · have hqf : q ∈ rest.filter (fun r => r.id != p.id) :=
          List.mem_filter.mpr ⟨h, by simpa using hid⟩
        have hinj' : ∀ a ∈ rest.filter (fun r => r.id != p.id),
            ∀ b ∈ rest.filter (fun r => r.id != p.id), a.id = b.id → a = b := by
          intro a haf b hbf hab
          exact hinj a (List.mem_cons_of_mem p (List.mem_of_mem_filter haf))
            b (List.mem_cons_of_mem p (List.mem_of_mem_filter hbf)) hab
        exact List.mem_cons_of_mem p (ih hinj' q hqf)

theorem nodup_groupByPost (l : List Post) : ((groupByPost l).map Post.id).Nodup := by
  induction l using groupByPost.induct with
  | case1 =>
    rw [groupByPost]
    exact List.nodup_nil
  | case2 p rest ih =>
    rw [groupByPost, List.map_cons, List.nodup_cons]
    refine ⟨?_, ih⟩
    intro hmem
    obtain ⟨q, hq, hqid⟩ := List.mem_map.mp hmem
    have hqf := groupByPost_subset _ q hq
    have hne := (List.mem_filter.mp hqf).2
    simp only [bne_iff_ne, ne_eq] at hne
    exact hne hqid

/-- C1: for a requesting user present in the user table, over a database
whose posts have distinct primary keys and reference existing authors, the
feed query returns exactly the posts whose author is the user or a user the
user follows, each exactly once (distinct primary keys in the result), in
non-increasing timestamp order. -/
theorem following_posts_spec (db : DB) (selfId : Nat)
    (hids : (db.posts.map Post.id).Nodup)
    (hauth : ∀ p ∈ db.posts, ∃ a ∈ db.users, a.id = p.user_id)
    (hself : ∃ su ∈ db.users, su.id = selfId) :
    (∀ p, p ∈ following_posts db selfId ↔
        p ∈ db.posts ∧ (p.user_id = selfId ∨ (selfId, p.user_id) ∈ db.followers)) ∧
    ((following_posts db selfId).map Post.id).Nodup ∧
    (following_posts db selfId).Pairwise (fun a b => b.timestamp ≤ a.timestamp) := by
  have hperm : List.Perm (following_posts db selfId) (groupByPost (queryRows db selfId)) :=
    List.perm_insertionSort postDescOrder _
  have hinjq : ∀ a ∈ queryRows db selfId, ∀ b ∈ queryRows db selfId,
      a.id = b.id → a = b := by
    intro a ha b hb hab
    exact List.inj_on_of_nodup_map hids (queryRows_subset db selfId a ha)
      (queryRows_subset db selfId b hb) hab
  refine ⟨?_, ?_, ?_⟩
  · intro p
    rw [hperm.mem_iff]
    constructor
    · intro h
      have hq := groupByPost_subset _ p h
      have hiff := (mem_queryRows db selfId p hself).mp hq
      exact ⟨hiff.1, hiff.2.2⟩
    · intro h
      refine mem_groupByPost _ hinjq p ?_
      exact (mem_queryRows db selfId p hself).mpr ⟨h.1, hauth p h.1, h.2⟩
  · exact ((hperm.map Post.id).nodup_iff).mpr (nodup_groupByPost (queryRows db selfId))
  · exact List.sorted_insertionSort postDescOrder (groupByPost (queryRows db selfId))

/-- Witness for C1 at the concrete database: user 1 follows user 2, so the
feed of user 1 holds bob's post and alice's own post with distinct keys, and
carol's post is excluded. -/
theorem following_posts_spec_witness :
    ((⟨2, "yo", 9, 2⟩ : Post) ∈ following_posts exDB 1 ∧
      (⟨1, "hi", 5, 1⟩ : Post) ∈ following_posts exDB 1 ∧
      (⟨3, "hm", 7, 3⟩ : Post) ∉ following_posts exDB 1) ∧
    ((following_posts exDB 1).map Post.id).Nodup := by
  have h := following_posts_spec exDB 1 (by decide) (by decide) (by decide)
  refine ⟨⟨?_, ?_, ?_⟩, h.2.1⟩
  · exact (h.1 ⟨2, "yo", 9, 2⟩).mpr (by decide)
  · exact (h.1 ⟨1, "hi", 5, 1⟩).mpr (by decide)
  · intro hmem
    have := (h.1 ⟨3, "hm", 7, 3⟩).mp hmem
    revert this
    decide

end Microblog
